import Mathlib

/-!
Shallow embedding of `14039/lora-farm-radio` (files `log_to_aws.py` and
`dsdtech_switch_test.py`) and proofs about it.

Conventions of the embedding:
* Python byte values are `Nat` with explicit masking (`&&& 0xFF`, `% 2^w`)
  exactly where the source masks.
* Python `bytes` / `bytearray` values are `List Nat`.
* Python `float` configuration values compared against `0` are modelled as
  `Rat` (no float arithmetic is performed by the modelled code paths).
* Python `None`-or-value is `Option`.
* The in-memory FIFO deque is a `List`, oldest item first: `append` models
  `deque.append`, taking the head models `deque.popleft`.
-/

/-! ## Frame codec (`log_to_aws._frame`, `dsdtech_switch_test.build_frame`) -/

/-- XOR of a list of byte values, as computed by the accumulator loops
`x = 0; for b in pkt: x ^= b` in both source files. -/
def xorAll (l : List Nat) : Nat :=
  l.foldl (fun a b => a ^^^ b) 0

/-- `log_to_aws._frame(password, opcode, content)`:
`[0xA1][pwd_hi][pwd_lo][opcode][content...][xor][0xAA]`. -/
def _frame (password opcode : Nat) (content : List Nat) : List Nat :=
  let pkt := [0xA1, (password >>> 8) &&& 0xFF, password &&& 0xFF, opcode] ++ content
  pkt ++ [xorAll pkt, 0xAA]

/-- `dsdtech_switch_test.build_frame(opcode, content)`; the module-global
`PWD` is passed explicitly. -/
def build_frame (pwd opcode : Nat) (content : List Nat) : List Nat :=
  let header := [0xA1, (pwd >>> 8) &&& 0xFF, pwd &&& 0xFF, opcode]
  let payload := header ++ content
  payload ++ [xorAll payload, 0xAA]

/-- `log_to_aws._on_now(password, channel)`. -/
def _on_now (password : Nat) (channel : Nat := 0x01) : List Nat :=
  _frame password 0x01 [channel]

/-- `log_to_aws._off_now(password, channel)`. -/
def _off_now (password : Nat) (channel : Nat := 0x01) : List Nat :=
  _frame password 0x02 [channel]

/-- The checksum relation of an encoded frame: the byte at index
`length - 2` equals the XOR of all bytes before it (the bytes the checksum
covers: sync, password, opcode and content). -/
def checksumOk (f : List Nat) : Bool :=
  decide (2 ≤ f.length) && (f.getD (f.length - 2) 0 == xorAll (f.take (f.length - 2)))

/-! ## Delivery queue (`log_to_aws.InMemoryQueue`) and the requeue-on-failure
logic of `main` -/

/-- `InMemoryQueue.enqueue`: `deque.append` on the state list (oldest first). -/
def enqueue (q : List α) (x : α) : List α :=
  q ++ [x]

/-- `InMemoryQueue.dequeue_batch(max_items)`: the loop
`while self._q and len(out) < max_items: out.append(self._q.popleft())`.
Returns the collected batch and the remaining queue state. The recursion
tracks `max_items - len(out)` as the fuel, exactly the loop's progress. -/
def dequeue_batch : List α → Nat → List α × List α
  | q, 0 => ([], q)
  | [], _ + 1 => ([], [])
  | x :: q, n + 1 =>
    let r := dequeue_batch q n
    (x :: r.1, r.2)

/-- The flush-failure handler in `log_to_aws.main`:
`for it in reversed(items): q.enqueue(it)` applied to the current queue
state `q` (which may already hold concurrently enqueued items). -/
def requeue_failed (q items : List α) : List α :=
  items.reverse.foldl enqueue q

/-! ## Relay duty-cycle controller startup (`log_to_aws.start_bt_switcher`) -/

/-- Python truthiness test `not mac` for `mac : Optional[str]`:
true for `None` and for the empty string. -/
def pyFalsyOptStr : Option String → Bool
  | none => true
  | some s => s == ""

/-- `log_to_aws.start_bt_switcher`: returns `none` without starting anything
when `uptime <= 0 or downtime <= 0 or not mac`, otherwise starts the
controller thread (abstracted to `some ()`). -/
def start_bt_switcher (uptime_mins downtime_mins : Rat) (mac : Option String) :
    Option Unit :=
  if uptime_mins ≤ 0 ∨ downtime_mins ≤ 0 ∨ pyFalsyOptStr mac then none
  else some ()

/-! ## JSON model (`json.loads` as used by `parse_line_to_packet`)

Python's `json.loads` in its default strict mode. Numeric literals are kept
as their lexemes (`Json.num "3.7"`): the modelled pipeline only moves the
decoded values around, it never does float arithmetic on them. The
`NaN`/`Infinity` extensions of Python's decoder are kept as lexemes too.
Lone `\uXXXX` escapes are mapped through `Char.ofNat`; surrogate-pair
recombination is not modelled (no claim touches it). -/

def lbrace : Char := Char.ofNat 0x7b

def rbrace : Char := Char.ofNat 0x7d

inductive Json where
  | null
  | bool (b : Bool)
  | num (lit : String)
  | str (s : String)
  | arr (elems : List Json)
  | obj (members : List (String × Json))

/-- JSON-grammar whitespace, as skipped by Python's decoder. -/
def isJsonWs (c : Char) : Bool :=
  c == ' ' || c == '\t' || c == '\n' || c == '\r'

def skipWs : List Char → List Char
  | [] => []
  | c :: rest => if isJsonWs c then skipWs rest else c :: rest

def hexDigit? (c : Char) : Option Nat :=
  if c.isDigit then some (c.toNat - '0'.toNat)
  else if 'a' ≤ c ∧ c ≤ 'f' then some (c.toNat - 'a'.toNat + 10)
  else if 'A' ≤ c ∧ c ≤ 'F' then some (c.toNat - 'A'.toNat + 10)
  else none

def escChar? : Char → Option Char
  | '"' => some '"'
  | '\\' => some '\\'
  | '/' => some '/'
  | 'b' => some (Char.ofNat 8)
  | 'f' => some (Char.ofNat 12)
  | 'n' => some '\n'
  | 'r' => some '\r'
  | 't' => some '\t'
  | _ => none

/-- Body of a JSON string after the opening quote; strict mode rejects raw
control characters. -/
def parseStringBody : List Char → List Char → Option (String × List Char)
  | _, [] => none
  | acc, '\\' :: 'u' :: h1 :: h2 :: h3 :: h4 :: rest =>
    match hexDigit? h1, hexDigit? h2, hexDigit? h3, hexDigit? h4 with
    | some a, some b, some c, some d =>
      parseStringBody (Char.ofNat (((a * 16 + b) * 16 + c) * 16 + d) :: acc) rest
    | _, _, _, _ => none
  | acc, '\\' :: e :: rest =>
    match escChar? e with
    | some c => parseStringBody (c :: acc) rest
    | none => none
  | acc, c :: rest =>
    if c = '"' then some (String.mk acc.reverse, rest)
    else if c.toNat < 0x20 then none
    else parseStringBody (c :: acc) rest

def takeDigits : List Char → List Char × List Char
  | [] => ([], [])
  | c :: rest =>
    if c.isDigit then
      let r := takeDigits rest
      (c :: r.1, r.2)
    else ([], c :: rest)

/-- `(-?(?:0|[1-9]\d*))` of the decoder's number regex, after the sign. -/
def parseIntPart : List Char → Option (List Char × List Char)
  | [] => none
  | '0' :: rest => some (['0'], rest)
  | c :: rest =>
    if c.isDigit then
      let d := takeDigits rest
      some (c :: d.1, d.2)
    else none

/-- `(\.\d+)?` of the decoder's number regex. -/
def parseFrac : List Char → List Char × List Char
  | '.' :: rest =>
    let d := takeDigits rest
    if d.1.isEmpty then ([], '.' :: rest) else ('.' :: d.1, d.2)
  | s => ([], s)

/-- `([eE][-+]?\d+)?` of the decoder's number regex. -/
def parseExp : List Char → List Char × List Char
  | [] => ([], [])
  | e :: rest =>
    if e = 'e' ∨ e = 'E' then
      match rest with
      | [] => ([], [e])
      | s :: rest2 =>
        if s = '+' ∨ s = '-' then
          let d := takeDigits rest2
          if d.1.isEmpty then ([], e :: s :: rest2) else (e :: s :: d.1, d.2)
        else
          let d := takeDigits (s :: rest2)
          if d.1.isEmpty then ([], e :: s :: rest2) else (e :: d.1, d.2)
    else ([], e :: rest)

def parseNumber (s : List Char) : Option (String × List Char) :=
  let p := match s with
    | '-' :: rest => (['-'], rest)
    | _ => (([] : List Char), s)
  match parseIntPart p.2 with
  | none => none
  | some (ip, s2) =>
    let f := parseFrac s2
    let e := parseExp f.2
    some (String.mk (p.1 ++ ip ++ f.1 ++ e.1), e.2)

mutual

/-- One JSON value, fuel-bounded recursive descent. -/
def parseValue : Nat → List Char → Option (Json × List Char)
  | 0, _ => none
  | fuel + 1, s =>
    match s with
    | [] => none
    | 't' :: 'r' :: 'u' :: 'e' :: rest => some (.bool true, rest)
    | 'f' :: 'a' :: 'l' :: 's' :: 'e' :: rest => some (.bool false, rest)
    | 'n' :: 'u' :: 'l' :: 'l' :: rest => some (.null, rest)
    | 'N' :: 'a' :: 'N' :: rest => some (.num ("NaN"), rest)
    | 'I' :: 'n' :: 'f' :: 'i' :: 'n' :: 'i' :: 't' :: 'y' :: rest =>
      some (.num ("Infinity"), rest)
    | '-' :: 'I' :: 'n' :: 'f' :: 'i' :: 'n' :: 'i' :: 't' :: 'y' :: rest =>
      some (.num ("-Infinity"), rest)
    | '"' :: rest => (parseStringBody [] rest).map fun p => (Json.str p.1, p.2)
    | c :: rest =>
      if c = lbrace then
        match skipWs rest with
        | [] => none
        | d :: rest2 =>
          if d = rbrace then some (.obj [], rest2)
          else (parseMembers fuel (d :: rest2)).map fun p => (Json.obj p.1, p.2)
      else if c = '[' then
        match skipWs rest with
        | ']' :: rest2 => some (.arr [], rest2)
        | s2 => (parseElements fuel s2).map fun p => (Json.arr p.1, p.2)
      else if c = '-' ∨ c.isDigit then
        (parseNumber (c :: rest)).map fun p => (Json.num p.1, p.2)
      else none

/-- `"key" : value (, ...)* rbrace`, positioned at a key. -/
def parseMembers : Nat → List Char → Option (List (String × Json) × List Char)
  | 0, _ => none
  | fuel + 1, s =>
    match s with
    | '"' :: rest =>
      match parseStringBody [] rest with
      | none => none
      | some (key, r1) =>
        match skipWs r1 with
        | ':' :: r2 =>
          match parseValue fuel (skipWs r2) with
          | none => none
          | some (v, r3) =>
            match skipWs r3 with
            | [] => none
            | c :: r4 =>
              if c = ',' then
                match parseMembers fuel (skipWs r4) with
                | some (ms, r5) => some ((key, v) :: ms, r5)
                | none => none
              else if c = rbrace then some ([(key, v)], r4)
              else none
        | _ => none
    | _ => none

/-- `value (, value)* ]`, positioned at the first element. -/
def parseElements : Nat → List Char → Option (List Json × List Char)
  | 0, _ => none
  | fuel + 1, s =>
    match parseValue fuel s with
    | none => none
    | some (v, r1) =>
      match skipWs r1 with
      | ',' :: r2 =>
        match parseElements fuel (skipWs r2) with
        | some (vs, r3) => some (v :: vs, r3)
        | none => none
      | ']' :: r2 => some ([v], r2)
      | _ => none

end

/-- `json.loads`: one value, surrounded only by whitespace; `none` models a
raised `JSONDecodeError`. -/
def json_loads (s : List Char) : Option Json :=
  match parseValue (s.length + 1) (skipWs s) with
  | some (v, rest) => if skipWs rest = [] then some v else none
  | none => none

/-! ## Packet parser (`log_to_aws._extract_json_text`, `parse_line_to_packet`)

Python `str.strip()` strips Unicode whitespace; the model covers the ASCII
whitespace characters (the serial link is UTF-8 text and the claims only
exercise ASCII whitespace). -/

def isPySpace (c : Char) : Bool :=
  c == ' ' || c == '\t' || c == '\n' || c == '\r' ||
    c == Char.ofNat 0x0b || c == Char.ofNat 0x0c

/-- Python `str.strip()`. -/
def pyStrip (s : List Char) : List Char :=
  ((s.dropWhile isPySpace).reverse.dropWhile isPySpace).reverse

/-- `text.split("|", 1)[1]`: everything after the first `|` (callers guard
with `"|" in text`). -/
def afterFirstPipe : List Char → List Char
  | [] => []
  | c :: rest => if c = '|' then rest else afterFirstPipe rest

/-- `log_to_aws._extract_json_text(line)`. The `try/except` around the
split is dead (string splitting cannot raise there) and is not modelled. -/
def _extract_json_text (line : List Char) : Option (List Char) :=
  let text := pyStrip line
  if text.isEmpty || text.head? == some '#' then none
  else if text.head? == some lbrace && text.getLast? == some rbrace then some text
  else if text.contains '|' then
    let part := pyStrip (afterFirstPipe text)
    if part.head? == some lbrace && part.getLast? == some rbrace then some part
    else none
  else none

/-- `log_to_aws.parse_line_to_packet(line)`: extract the JSON text (the
`if not json_text` guard also catches the empty string, which
`_extract_json_text` never returns), decode it, keep only `dict` results.
A decode failure (`JSONDecodeError`) is caught and yields `None`. -/
def parse_line_to_packet (line : List Char) : Option (List (String × Json)) :=
  match _extract_json_text line with
  | none => none
  | some t =>
    match json_loads t with
    | some (Json.obj kvs) => some kvs
    | _ => none

/-- Decode JSON text and keep the result only when it is an object (the
`isinstance(obj, dict)` check of `parse_line_to_packet`). -/
def decodeObj (t : List Char) : Option (List (String × Json)) :=
  match json_loads t with
  | some (Json.obj kvs) => some kvs
  | _ => none

/-! ## Identity derivation (`log_to_aws.stable_hardware_id`) -/

/-- One reflected CRC-32 bit step (polynomial `0xEDB88320`). -/
def crc32Step (crc : Nat) : Nat :=
  if crc % 2 = 1 then (crc / 2) ^^^ 0xEDB88320 else crc / 2

/-- Fold one byte into the running CRC (8 bit steps). -/
def crc32Byte (crc b : Nat) : Nat :=
  (crc32Step ∘ crc32Step ∘ crc32Step ∘ crc32Step ∘
    crc32Step ∘ crc32Step ∘ crc32Step ∘ crc32Step) (crc ^^^ b)

/-- `binascii.crc32(data)`: init `0xFFFFFFFF`, final complement; the result
is already `< 2^32`. -/
def crc32 (data : List Nat) : Nat :=
  (data.foldl crc32Byte 0xFFFFFFFF) ^^^ 0xFFFFFFFF

/-- UTF-8 encoding of one character (`str.encode("utf-8")`). -/
def utf8Char (c : Char) : List Nat :=
  let n := c.toNat
  if n < 0x80 then [n]
  else if n < 0x800 then [0xC0 ||| (n >>> 6), 0x80 ||| (n &&& 0x3F)]
  else if n < 0x10000 then
    [0xE0 ||| (n >>> 12), 0x80 ||| ((n >>> 6) &&& 0x3F), 0x80 ||| (n &&& 0x3F)]
  else
    [0xF0 ||| (n >>> 18), 0x80 ||| ((n >>> 12) &&& 0x3F),
      0x80 ||| ((n >>> 6) &&& 0x3F), 0x80 ||| (n &&& 0x3F)]

/-- `s.encode("utf-8")` as a byte list. -/
def utf8 (s : String) : List Nat :=
  (s.toList.map utf8Char).flatten

/-- `log_to_aws.stable_hardware_id(name_or_txid)`:
`1000 + (binascii.crc32(name.encode("utf-8")) & 0xFFFFFFFF & 0x7FFFFFFF)`. -/
def stable_hardware_id (name_or_txid : String) : Nat :=
  let c := crc32 (utf8 name_or_txid) &&& 0xFFFFFFFF
  1000 + (c &&& 0x7FFFFFFF)

/-! ## Packet translator (`log_to_aws.translate_packet`)

A parsed packet is the decoded JSON object. `dict.get(k)` returns `None`
both when the key is absent and when its value is JSON `null`; the model
returns `Json.null` in both cases, matching that. Duplicate keys in the
decoded text resolve to the last occurrence, as in Python's dict
construction. The module globals `DEFAULT_LAT` / `DEFAULT_LON` are passed
explicitly (`Json.null` models an unset default), and the receipt-time
timestamp `datetime.now(timezone.utc)` is an opaque `now` parameter. -/

def pyGet (pkt : List (String × Json)) (k : String) : Json :=
  match (pkt.filter fun p => p.1 == k).getLast? with
  | some p => p.2
  | none => Json.null

/-- Python `isinstance(v, (int, float))` for a JSON-decoded value. `bool`
is a subclass of `int` in Python, so it passes the check. -/
def isNumericPy : Json → Bool
  | .num _ => true
  | .bool _ => true
  | _ => false

def isJsonNull : Json → Bool
  | .null => true
  | _ => false

/-- Python `str()` of a JSON-decoded value, used by the `f"tx-..."`
fallback name. Numbers render by their lexeme (a model: Python float repr
may normalise, e.g. `1e2` prints as `100.0`; no claim depends on this) and
containers by a placeholder. -/
def pyStr : Json → String
  | .null => "None"
  | .bool true => "True"
  | .bool false => "False"
  | .num lit => lit
  | .str s => s
  | .arr _ => "[...]"
  | .obj _ => "\x7b...\x7d"

structure Sensor where
  hardware_id : Nat
  name : String
  sensor_type : Json
  gps_latitude : Json
  gps_longitude : Json
  metadata : List (String × Json)

structure Reading where
  sensor_id : Nat
  ts : Nat
  sequence : Json
  temperature_c : Json
  humidity_pct : Json
  capacitance_val : Json
  battery_v : Json
  rssi_dbm : Json

/-- `log_to_aws.translate_packet(pkt)` producing the `(sensor, reading)`
pair. -/
def translate_packet (dlat dlon : Json) (pkt : List (String × Json)) (now : Nat) :
    Sensor × Reading :=
  let name0 := pyGet pkt ("name")
  let sidFallback := pyGet pkt ("sensor_id")
  let fallback :=
    "tx-" ++ (if isJsonNull sidFallback then ("unknown") else pyStr sidFallback)
  let name := match name0 with
    | .str s => if s.isEmpty then fallback else s
    | _ => fallback
  let hid := stable_hardware_id name
  let g1 := pyGet pkt ("gps_lat")
  let g2 := pyGet pkt ("gps_long")
  let lat := if isNumericPy g1 then g1 else dlat
  let lon := if isNumericPy g2 then g2 else dlon
  let st := match pyGet pkt ("sensor_type") with
    | .str s => Json.str s
    | _ => Json.null
  ({ hardware_id := hid
     name := name
     sensor_type := st
     gps_latitude := lat
     gps_longitude := lon
     metadata := [("source", Json.str ("radio")), ("net", pyGet pkt ("net"))] },
   { sensor_id := hid
     ts := now
     sequence := pyGet pkt ("sequence")
     temperature_c := pyGet pkt ("temperature_c")
     humidity_pct := pyGet pkt ("humidity_pct")
     capacitance_val := pyGet pkt ("capacitance_val")
     battery_v := pyGet pkt ("battery_v")
     rssi_dbm := pyGet pkt ("rssi_dbm") })

/-! ## Helper lemmas -/

theorem xor_left_comm (a b c : Nat) : a ^^^ (b ^^^ c) = b ^^^ (a ^^^ c) := by
  rw [← Nat.xor_assoc, Nat.xor_comm a b, Nat.xor_assoc]

theorem xorAll_foldl_init (l : List Nat) (a : Nat) :
    l.foldl (fun x b => x ^^^ b) a = a ^^^ xorAll l := by
  induction l generalizing a with
  | nil => simp [xorAll]
  | cons c l ih =>
    simp only [List.foldl_cons, xorAll, ih (a ^^^ c), ih (0 ^^^ c)]
    simp [Nat.xor_assoc]

theorem xorAll_cons (c : Nat) (l : List Nat) : xorAll (c :: l) = c ^^^ xorAll l := by
  have h := xorAll_foldl_init l (0 ^^^ c)
  simpa [xorAll] using h

theorem xorAll_set (l : List Nat) (i b : Nat) (hi : i < l.length) :
    xorAll (l.set i b) = (xorAll l ^^^ l.getD i 0) ^^^ b := by
  induction l generalizing i with
  | nil => simp at hi
  | cons c l ih =>
    cases i with
    | zero =>
      simp only [List.set_cons_zero, xorAll_cons, List.getD_cons_zero]
      rw [Nat.xor_comm c (xorAll l), Nat.xor_assoc,
        Nat.xor_assoc (xorAll l) c (c ^^^ b), ← Nat.xor_assoc c c b,
        Nat.xor_self, Nat.zero_xor]
      exact Nat.xor_comm b (xorAll l)
    | succ i =>
      have hi' : i < l.length := by simpa using hi
      simp only [List.set_cons_succ, xorAll_cons, List.getD_cons_succ, ih i hi']
      simp [Nat.xor_assoc, Nat.xor_comm, xor_left_comm]

theorem dequeue_batch_eq {α : Type} (q : List α) (n : Nat) :
    dequeue_batch q n = (q.take n, q.drop n) := by
  induction q generalizing n with
  | nil => cases n <;> simp [dequeue_batch]
  | cons x q ih =>
    cases n with
    | zero => simp [dequeue_batch]
    | succ n => simp [dequeue_batch, ih]

theorem foldl_enqueue {α : Type} (l q : List α) : l.foldl enqueue q = q ++ l := by
  induction l generalizing q with
  | nil => simp
  | cons x l ih => simp [enqueue, ih]

theorem requeue_failed_eq {α : Type} (q items : List α) :
    requeue_failed q items = q ++ items.reverse :=
  foldl_enqueue _ _

/-! ## Claims -/

/-- C2: for every queue state and every `max_items` `n`, `dequeue_batch`
returns the `min(n, length)` oldest items in their original enqueue order,
the queue afterwards holds exactly the remaining items in their original
order (batch ++ remainder = original queue, so nothing is lost), and on an
empty queue the batch is empty. -/
theorem C2_dequeue_batch_fifo {α : Type} (q : List α) (n : Nat) :
    (dequeue_batch q n).1 = q.take n ∧
    (dequeue_batch q n).2 = q.drop n ∧
    (dequeue_batch q n).1.length = min n q.length ∧
    (dequeue_batch q n).1 ++ (dequeue_batch q n).2 = q ∧
    (dequeue_batch ([] : List α) n).1 = [] := by
  refine ⟨?_, ?_, ?_, ?_, ?_⟩ <;>
    simp [dequeue_batch_eq, List.take_append_drop]

/-- C1: the flush-failure handler of `main` re-enqueues the failed batch
with `enqueue` (append) under `reversed(...)`, so with batch `[1, 2]`
dequeued, the flush raising, and item `3` enqueued concurrently, the queue
ends as `[3, 2, 1]` — the batch is appended after the newer item and in
reversed relative order, not prepended in original order; in general the
handler computes `q ++ items.reverse`, so every item is put back (the
result is a permutation of `q ++ items`: no loss) but both the placement
and the relative order contradict the specified behaviour. -/
theorem C1_requeue_failed_appends_reversed :
    requeue_failed [3] [1, 2] = ([3, 2, 1] : List Nat) ∧
    requeue_failed [3] [1, 2] ≠ ([1, 2, 3] : List Nat) ∧
    (∀ (α : Type) (q items : List α), requeue_failed q items = q ++ items.reverse) ∧
    (∀ (α : Type) (q items : List α), (requeue_failed q items).Perm (q ++ items)) := by
  refine ⟨by decide, by decide, fun α q items => requeue_failed_eq q items, ?_⟩
  intro α q items
  rw [requeue_failed_eq]
  exact (List.reverse_perm items).append_left q

/-- C3: the encoded frame is exactly the sync byte, password big-endian,
opcode, content, the XOR of all preceding bytes, and the `0xAA`
terminator; its length is `len(content) + 6`; `build_frame` of the test
utility encodes identically. -/
theorem C3_frame_encoding (password opcode : Nat) (content : List Nat)
    (hp : password ≤ 0xFFFF) (ho : opcode < 256) (hc : content.length ≤ 255) :
    _frame password opcode content =
      [0xA1, (password >>> 8) &&& 0xFF, password &&& 0xFF, opcode] ++ content ++
        [xorAll ([0xA1, (password >>> 8) &&& 0xFF, password &&& 0xFF, opcode] ++ content),
          0xAA] ∧
    (_frame password opcode content).length = content.length + 6 ∧
    build_frame password opcode content = _frame password opcode content := by
  refine ⟨?_, ?_, rfl⟩
  · simp [_frame, List.append_assoc]
  · simp [_frame]

/-- C3 witness: the default-password "ON now" frame, with every hypothesis
discharged at the concrete input. -/
theorem C3_frame_encoding_witness :
    _frame 0x04D2 1 [1] = [0xA1, 0x04, 0xD2, 0x01, 0x01, 0x77, 0xAA] := by
  have h := C3_frame_encoding 0x04D2 1 [1] (by decide) (by decide) (by decide)
  rw [h.1]
  decide

theorem checksumOk_append_self (pkt : List Nat) (t : Nat) :
    checksumOk (pkt ++ [xorAll pkt, t]) = true := by
  unfold checksumOk
  have hlen : (pkt ++ [xorAll pkt, t]).length - 2 = pkt.length := by
    simp
  rw [hlen, List.getD_append_right _ _ _ _ (le_refl _), Nat.sub_self,
    List.take_left]
  simp

/-- Changing any byte below the terminator of a well-formed frame breaks
the checksum relation. -/
theorem checksumOk_set_false (pkt : List Nat) (t i b : Nat)
    (hi : i < pkt.length + 1) (hneq : b ≠ (pkt ++ [xorAll pkt, t]).getD i 0) :
    checksumOk ((pkt ++ [xorAll pkt, t]).set i b) = false := by
  rcases Nat.lt_or_ge i pkt.length with hilt | hige
  · -- a covered byte changes: the XOR of the covered region changes
    rw [List.set_append_left _ _ hilt]
    have hg : (pkt ++ [xorAll pkt, t]).getD i 0 = pkt.getD i 0 :=
      List.getD_append _ _ _ _ hilt
    unfold checksumOk
    have hlen : (pkt.set i b ++ [xorAll pkt, t]).length - 2 = (pkt.set i b).length := by
      simp
    rw [hlen, List.getD_append_right _ _ _ _ (le_refl _), Nat.sub_self,
      List.take_left]
    have hlen2 : (pkt.set i b).length = pkt.length := by simp
    have hxor : xorAll (pkt.set i b) = (xorAll pkt ^^^ pkt.getD i 0) ^^^ b :=
      xorAll_set pkt i b hilt
    have hne : xorAll pkt ≠ xorAll (pkt.set i b) := by
      rw [hxor]
      intro h
      have h0 : xorAll pkt ^^^ (xorAll pkt ^^^ pkt.getD i 0 ^^^ b) = 0 := by
        rw [← h, Nat.xor_self]
      rw [← Nat.xor_assoc, ← Nat.xor_assoc, Nat.xor_self, Nat.zero_xor,
        Nat.xor_eq_zero] at h0
      exact hneq (by rw [hg, ← h0])
    simpa using fun h => absurd h hne
  · -- the checksum byte itself changes
    have hieq : i = pkt.length := by omega
    subst hieq
    rw [List.set_append_right _ _ (le_refl _), Nat.sub_self,
      show ([xorAll pkt, t].set 0 b) = [b, t] from rfl]
    have hg : (pkt ++ [xorAll pkt, t]).getD pkt.length 0 = xorAll pkt := by
      rw [List.getD_append_right _ _ _ _ (le_refl _), Nat.sub_self]
      rfl
    rw [hg] at hneq
    unfold checksumOk
    have hlen : (pkt ++ [b, t]).length - 2 = pkt.length := by simp
    rw [hlen, List.getD_append_right _ _ _ _ (le_refl _), Nat.sub_self,
      List.take_left]
    simpa using fun h => absurd h hneq

/-- C4 counterexample: the claim is false as stated — changing the final
`0xAA` terminator byte of an encoded frame yields a different byte string
whose checksum byte still equals the XOR of the bytes it covers. -/
theorem C4_counterexample_terminator_byte :
    (_frame 0x04D2 0x01 [0x01]).set 6 0 ≠ _frame 0x04D2 0x01 [0x01] ∧
    checksumOk ((_frame 0x04D2 0x01 [0x01]).set 6 0) = true := by
  decide

/-- C4 (amended): for all valid inputs the frame's checksum byte equals
the XOR of the sync byte, the two password bytes, the opcode and the
content bytes, and changing any single byte of the frame other than the
final terminator byte (any index `i < length - 1`, to a different value)
makes the checksum relation fail. -/
theorem C4_checksum_detects_byte_change (password opcode : Nat)
    (content : List Nat) (hp : password ≤ 0xFFFF) (ho : opcode < 256)
    (hc : content.length ≤ 255) (i b : Nat)
    (hi : i < (_frame password opcode content).length - 1) (hb : b < 256)
    (hneq : b ≠ (_frame password opcode content).getD i 0) :
    checksumOk (_frame password opcode content) = true ∧
    (_frame password opcode content).getD
        ((_frame password opcode content).length - 2) 0 =
      xorAll ([0xA1, (password >>> 8) &&& 0xFF, password &&& 0xFF, opcode] ++
        content) ∧
    checksumOk ((_frame password opcode content).set i b) = false := by
  refine ⟨checksumOk_append_self _ _, ?_, ?_⟩
  · show (let pkt := [0xA1, (password >>> 8) &&& 0xFF, password &&& 0xFF,
        opcode] ++ content; pkt ++ [xorAll pkt, 0xAA]).getD _ 0 = _
    have hlen : (_frame password opcode content).length - 2 =
        ([0xA1, (password >>> 8) &&& 0xFF, password &&& 0xFF, opcode] ++
          content).length := by
      simp [_frame]
    rw [hlen, List.getD_append_right _ _ _ _ (le_refl _), Nat.sub_self]
    rfl
  · apply checksumOk_set_false
    · have : (_frame password opcode content).length =
          ([0xA1, (password >>> 8) &&& 0xFF, password &&& 0xFF, opcode] ++
            content).length + 2 := by
        simp [_frame]
      omega
    · exact hneq

/-- C4 witness: the amended theorem applied at the default-password "ON
now" frame, changing the sync byte at index 0 to 0. -/
theorem C4_checksum_detects_byte_change_witness :
    checksumOk (_frame 0x04D2 1 [1]) = true ∧
    checksumOk ((_frame 0x04D2 1 [1]).set 0 0) = false := by
  have h := C4_checksum_detects_byte_change 0x04D2 1 [1] (by decide) (by decide)
    (by decide) 0 0 (by decide) (by decide) (by decide)
  exact ⟨h.1, h.2.2⟩

/-- C9: `start_bt_switcher` starts and returns the controller thread
exactly when both phases are positive and a nonempty device address is
configured; in every other configuration it returns `none` (nothing is
started). -/
theorem C9_start_bt_switcher_gate (up down : Rat) (mac : Option String) :
    (∃ t, start_bt_switcher up down mac = some t) ↔
      0 < up ∧ 0 < down ∧ ∃ s, mac = some s ∧ s ≠ "" := by
  unfold start_bt_switcher
  constructor
  · rintro ⟨t, ht⟩
    by_cases h : up ≤ 0 ∨ down ≤ 0 ∨ pyFalsyOptStr mac
    · rw [if_pos h] at ht
      exact absurd ht (by simp)
    · push_neg at h
      obtain ⟨h1, h2, h3⟩ := h
      refine ⟨h1, h2, ?_⟩
      cases mac with
      | none => exact absurd (by simp [pyFalsyOptStr]) h3
      | some s =>
        refine ⟨s, rfl, fun hs => ?_⟩
        simp [pyFalsyOptStr, hs] at h3
  · rintro ⟨h1, h2, s, rfl, hs⟩
    refine ⟨(), ?_⟩
    rw [if_neg]
    push_neg
    exact ⟨h1, h2, by simp [pyFalsyOptStr, hs]⟩

/-- C9 witness: a non-degenerate configuration does start the controller. -/
theorem C9_start_bt_switcher_gate_witness :
    ∃ t, start_bt_switcher 1 1 (some ("AA:BB:CC:DD:EE:FF")) = some t :=
  (C9_start_bt_switcher_gate 1 1 (some ("AA:BB:CC:DD:EE:FF"))).mpr
    ⟨by norm_num, by norm_num, "AA:BB:CC:DD:EE:FF", rfl, by decide⟩

/-- C10: for every packet the sensor metadata is exactly the two-key
mapping `source = "radio"`, `net = packet's net value` — with the `net`
key present (value null, i.e. Python `None`) even when the packet carries
no usable `net` field. -/
theorem C10_metadata_source_net (dlat dlon : Json) (pkt : List (String × Json))
    (now : Nat) :
    (translate_packet dlat dlon pkt now).1.metadata =
      [("source", Json.str ("radio")), ("net", pyGet pkt ("net"))] ∧
    ((translate_packet dlat dlon pkt now).1.metadata.map Prod.fst) =
      ["source", "net"] ∧
    ((pkt.filter fun p => p.1 == "net") = [] →
      (translate_packet dlat dlon pkt now).1.metadata =
        [("source", Json.str ("radio")), ("net", Json.null)]) := by
  refine ⟨rfl, rfl, fun h => ?_⟩
  unfold translate_packet pyGet
  rw [h]
  rfl

/-- C10 witness: a packet with no `net` field still gets the `net` key,
with a null value. -/
theorem C10_metadata_source_net_witness :
    (translate_packet Json.null Json.null [(("name" : String), Json.str ("a"))]
        0).1.metadata =
      [("source", Json.str ("radio")), ("net", Json.null)] :=
  (C10_metadata_source_net Json.null Json.null [(("name" : String), Json.str ("a"))]
    0).2.2 rfl

set_option maxRecDepth 10000 in
/-- Check vector for the CRC-32 model: `binascii.crc32(b"123456789")` is
the standard `0xCBF43926`. -/
theorem crc32_check_vector : crc32 (utf8 ("123456789")) = 0xCBF43926 := by
  decide

/-- C7: the hardware id is `1000` plus the CRC-32 of the UTF-8 bytes of
the name masked to the low 31 bits; it always lies in
`[1000, 1000 + 2^31 - 1]`; and `translate_packet` derives the same
`hardware_id` on identical packets regardless of receipt time. -/
theorem C7_stable_hardware_id_crc (name : String) :
    stable_hardware_id name = 1000 + (crc32 (utf8 name) % 2 ^ 31) ∧
    1000 ≤ stable_hardware_id name ∧
    stable_hardware_id name ≤ 1000 + (2 ^ 31 - 1) ∧
    (∀ (dlat dlon : Json) (pkt : List (String × Json)) (t1 t2 : Nat),
      (translate_packet dlat dlon pkt t1).1.hardware_id =
        (translate_packet dlat dlon pkt t2).1.hardware_id) := by
  have hmask : stable_hardware_id name = 1000 + (crc32 (utf8 name) % 2 ^ 31) := by
    show 1000 + ((crc32 (utf8 name) &&& 0xFFFFFFFF) &&& 0x7FFFFFFF) =
      1000 + (crc32 (utf8 name) % 2 ^ 31)
    rw [Nat.land_assoc, show ((0xFFFFFFFF : Nat) &&& 0x7FFFFFFF) = 2 ^ 31 - 1 by decide,
      Nat.and_pow_two_sub_one_eq_mod]
  refine ⟨hmask, ?_, ?_, fun dlat dlon pkt t1 t2 => rfl⟩
  · rw [hmask]; exact Nat.le_add_right _ _
  · rw [hmask]
    have h := Nat.mod_lt (crc32 (utf8 name)) (show 0 < 2 ^ 31 by norm_num)
    omega

theorem parse_line_none (line : List Char) (h : _extract_json_text line = none) :
    parse_line_to_packet line = none := by
  simp [parse_line_to_packet, h]

theorem parse_line_some (line t : List Char) (h : _extract_json_text line = some t) :
    parse_line_to_packet line = decodeObj t := by
  simp [parse_line_to_packet, decodeObj, h]

theorem decodeObj_none (t : List Char) (h : json_loads t = none) :
    decodeObj t = none := by
  simp [decodeObj, h]

theorem decodeObj_obj (t : List Char) (kvs : List (String × Json))
    (h : json_loads t = some (Json.obj kvs)) : decodeObj t = some kvs := by
  simp [decodeObj, h]

theorem decodeObj_not_obj (t : List Char) (v : Json) (h : json_loads t = some v)
    (hv : ∀ kvs, v ≠ Json.obj kvs) : decodeObj t = none := by
  cases v with
  | obj kvs => exact absurd rfl (hv kvs)
  | null => simp [decodeObj, h]
  | bool b => simp [decodeObj, h]
  | num l => simp [decodeObj, h]
  | str s => simp [decodeObj, h]
  | arr xs => simp [decodeObj, h]

theorem extract_none_of_blank (line : List Char)
    (h : pyStrip line = [] ∨ (pyStrip line).head? = some '#') :
    _extract_json_text line = none := by
  unfold _extract_json_text
  have hc : ((pyStrip line).isEmpty || ((pyStrip line).head? == some '#')) = true := by
    rcases h with h | h <;> simp [h]
  simp [hc]

theorem extract_braces (line : List Char)
    (h1 : (pyStrip line).head? = some lbrace)
    (h2 : (pyStrip line).getLast? = some rbrace) :
    _extract_json_text line = some (pyStrip line) := by
  simp only [_extract_json_text]
  split_ifs <;>
    first
      | rfl
      | (exfalso;
         simp_all +decide [List.isEmpty_iff, Bool.and_eq_true, beq_iff_eq, lbrace])

theorem extract_pipe (line : List Char)
    (h : ¬(pyStrip line = [] ∨ (pyStrip line).head? = some '#'))
    (hbr : ¬((pyStrip line).head? = some lbrace ∧
      (pyStrip line).getLast? = some rbrace))
    (hp : (pyStrip line).contains '|' = true) :
    _extract_json_text line =
      (if (pyStrip (afterFirstPipe (pyStrip line))).head? = some lbrace ∧
          (pyStrip (afterFirstPipe (pyStrip line))).getLast? = some rbrace then
        some (pyStrip (afterFirstPipe (pyStrip line)))
      else none) := by
  simp only [_extract_json_text]
  split_ifs <;>
    first
      | rfl
      | (exfalso;
         simp_all +decide [List.isEmpty_iff, Bool.and_eq_true, beq_iff_eq])

theorem extract_no_pipe (line : List Char)
    (h : ¬(pyStrip line = [] ∨ (pyStrip line).head? = some '#'))
    (hbr : ¬((pyStrip line).head? = some lbrace ∧
      (pyStrip line).getLast? = some rbrace))
    (hp : (pyStrip line).contains '|' = false) :
    _extract_json_text line = none := by
  simp only [_extract_json_text]
  split_ifs <;>
    first
      | rfl
      | (exfalso;
         simp_all +decide [List.isEmpty_iff, Bool.and_eq_true, beq_iff_eq])

/-- C6: the parser is total over all input lines: it always yields either
none or a packet (an object's members, as decoded from the extracted JSON
text) — never any other outcome. In the embedding every raising path of
the source (`json.JSONDecodeError`, the non-dict check) is an explicit
`none`, so no input can produce anything but these two results. -/
theorem C6_parse_line_total (line : List Char) :
    parse_line_to_packet line = none ∨
      ∃ kvs, parse_line_to_packet line = some kvs ∧
        ∃ t, _extract_json_text line = some t ∧
          json_loads t = some (Json.obj kvs) := by
  cases h : _extract_json_text line with
  | none => exact Or.inl (parse_line_none line h)
  | some t =>
    rw [parse_line_some line t h]
    cases h2 : json_loads t with
    | none => exact Or.inl (decodeObj_none t h2)
    | some v =>
      cases v with
      | obj kvs => exact Or.inr ⟨kvs, decodeObj_obj t kvs h2, t, rfl, h2⟩
      | null => exact Or.inl (decodeObj_not_obj t _ h2 fun kvs h' => Json.noConfusion h')
      | bool b => exact Or.inl (decodeObj_not_obj t _ h2 fun kvs h' => Json.noConfusion h')
      | num l => exact Or.inl (decodeObj_not_obj t _ h2 fun kvs h' => Json.noConfusion h')
      | str s => exact Or.inl (decodeObj_not_obj t _ h2 fun kvs h' => Json.noConfusion h')
      | arr xs => exact Or.inl (decodeObj_not_obj t _ h2 fun kvs h' => Json.noConfusion h')

/-- C8 counterexample: the claim is false as stated — for a packet with a
numeric `gps_lat` but no `gps_long` (and no configured default latitude),
the translator keeps the packet's latitude instead of letting both
coordinates fall back to the defaults: the packet's value for one
coordinate is combined with the default for the other. -/
theorem C8_counterexample_mixed_coordinates :
    pyGet [(("gps_lat" : String), Json.num ("1.0"))] ("gps_long") = Json.null ∧
    (translate_packet Json.null (Json.num ("5.0"))
        [(("gps_lat" : String), Json.num ("1.0"))] 0).1.gps_latitude ≠ Json.null ∧
    (translate_packet Json.null (Json.num ("5.0"))
        [(("gps_lat" : String), Json.num ("1.0"))] 0).1.gps_longitude =
      Json.num ("5.0") := by
  refine ⟨rfl, fun h => ?_, rfl⟩
  have e : (translate_packet Json.null (Json.num ("5.0"))
      [(("gps_lat" : String), Json.num ("1.0"))] 0).1.gps_latitude =
      Json.num ("1.0") := rfl
  rw [e] at h
  exact Json.noConfusion h

/-- C8 (amended): each coordinate falls back independently — the sensor's
latitude is the packet's `gps_lat` exactly when that value is numeric and
the configured default otherwise, and likewise, separately, for the
longitude; a numeric packet coordinate is kept even when the other
coordinate is absent or non-numeric. -/
theorem C8_coordinates_independent_fallback (dlat dlon : Json)
    (pkt : List (String × Json)) (now : Nat) :
    (isNumericPy (pyGet pkt ("gps_lat")) = true →
      (translate_packet dlat dlon pkt now).1.gps_latitude = pyGet pkt ("gps_lat")) ∧
    (isNumericPy (pyGet pkt ("gps_lat")) = false →
      (translate_packet dlat dlon pkt now).1.gps_latitude = dlat) ∧
    (isNumericPy (pyGet pkt ("gps_long")) = true →
      (translate_packet dlat dlon pkt now).1.gps_longitude = pyGet pkt ("gps_long")) ∧
    (isNumericPy (pyGet pkt ("gps_long")) = false →
      (translate_packet dlat dlon pkt now).1.gps_longitude = dlon) := by
  refine ⟨fun h => ?_, fun h => ?_, fun h => ?_, fun h => ?_⟩ <;>
    simp [translate_packet, h]

/-- C8 witness: the amended theorem at a packet holding only a numeric
`gps_lat`, with a configured default longitude. -/
theorem C8_coordinates_independent_fallback_witness :
    (translate_packet Json.null (Json.num ("5.0"))
        [(("gps_lat" : String), Json.num ("1.0"))] 0).1.gps_latitude =
      pyGet [(("gps_lat" : String), Json.num ("1.0"))] ("gps_lat") ∧
    (translate_packet Json.null (Json.num ("5.0"))
        [(("gps_lat" : String), Json.num ("1.0"))] 0).1.gps_longitude =
      Json.num ("5.0") :=
  ⟨(C8_coordinates_independent_fallback Json.null (Json.num ("5.0"))
      [(("gps_lat" : String), Json.num ("1.0"))] 0).1 rfl,
   (C8_coordinates_independent_fallback Json.null (Json.num ("5.0"))
      [(("gps_lat" : String), Json.num ("1.0"))] 0).2.2.2 rfl⟩

set_option maxRecDepth 10000 in
/-- C5: the line parser follows the spec's extraction rules — blank lines
and comment lines (first non-whitespace character `#`) yield none; a
trimmed line wrapped in braces is decoded directly and kept only when it
decodes to an object; otherwise, when the line contains a `|`, the trimmed
substring after the first `|` is decoded the same way provided it is
brace-wrapped; everything else yields none, as does any decode failure or
a decoded value that is not an object — together with the spec's five
acceptance examples. -/
theorem C5_parse_line_rules (line : List Char) :
    (pyStrip line = [] ∨ (pyStrip line).head? = some '#' →
      parse_line_to_packet line = none) ∧
    ((pyStrip line).head? = some lbrace → (pyStrip line).getLast? = some rbrace →
      parse_line_to_packet line = decodeObj (pyStrip line)) ∧
    (¬(pyStrip line = [] ∨ (pyStrip line).head? = some '#') →
      ¬((pyStrip line).head? = some lbrace ∧
        (pyStrip line).getLast? = some rbrace) →
      (pyStrip line).contains '|' = true →
      parse_line_to_packet line =
        (if (pyStrip (afterFirstPipe (pyStrip line))).head? = some lbrace ∧
            (pyStrip (afterFirstPipe (pyStrip line))).getLast? = some rbrace then
          decodeObj (pyStrip (afterFirstPipe (pyStrip line)))
        else none)) ∧
    (¬(pyStrip line = [] ∨ (pyStrip line).head? = some '#') →
      ¬((pyStrip line).head? = some lbrace ∧
        (pyStrip line).getLast? = some rbrace) →
      (pyStrip line).contains '|' = false →
      parse_line_to_packet line = none) ∧
    (∀ t, _extract_json_text line = some t → json_loads t = none →
      parse_line_to_packet line = none) ∧
    (∀ t v, _extract_json_text line = some t → json_loads t = some v →
      (∀ kvs, v ≠ Json.obj kvs) → parse_line_to_packet line = none) ∧
    parse_line_to_packet (String.toList ("\x7b\"name\":\"a\",\"battery_v\":3.7\x7d")) =
      some [("name", Json.str ("a")), ("battery_v", Json.num ("3.7"))] ∧
    parse_line_to_packet (String.toList ("# debug")) = none ∧
    parse_line_to_packet (String.toList ("ok seq=1 | \x7b\"name\":\"a\"\x7d")) =
      some [("name", Json.str ("a"))] ∧
    parse_line_to_packet (String.toList ("\x7b\"broken\"")) = none ∧
    parse_line_to_packet (String.toList ("")) = none := by
  refine ⟨?_, ?_, ?_, ?_, ?_, ?_, ?_, ?_, ?_, ?_, ?_⟩
  · exact fun h => parse_line_none line (extract_none_of_blank line h)
  · exact fun h1 h2 => parse_line_some line _ (extract_braces line h1 h2)
  · intro h hbr hp
    by_cases hc : (pyStrip (afterFirstPipe (pyStrip line))).head? = some lbrace ∧
        (pyStrip (afterFirstPipe (pyStrip line))).getLast? = some rbrace
    · rw [if_pos hc]
      exact parse_line_some line _ ((extract_pipe line h hbr hp).trans (if_pos hc))
    · rw [if_neg hc]
      exact parse_line_none line ((extract_pipe line h hbr hp).trans (if_neg hc))
  · exact fun h hbr hp => parse_line_none line (extract_no_pipe line h hbr hp)
  · exact fun t ht hj => (parse_line_some line t ht).trans (decodeObj_none t hj)
  · exact fun t v ht hj hv =>
      (parse_line_some line t ht).trans (decodeObj_not_obj t v hj hv)
  · rfl
  · rfl
  · rfl
  · rfl
  · rfl

/-- C5 witness: three of the rule conjuncts applied at concrete lines,
each hypothesis discharged by evaluation. -/
theorem C5_parse_line_rules_witness :
    parse_line_to_packet (String.toList ("   # x")) = none ∧
    parse_line_to_packet (String.toList (" \x7b\"a\":1\x7d ")) =
      decodeObj (pyStrip (String.toList (" \x7b\"a\":1\x7d "))) ∧
    parse_line_to_packet (String.toList ("plain text")) = none :=
  ⟨(C5_parse_line_rules (String.toList ("   # x"))).1 (Or.inr (by decide)),
   (C5_parse_line_rules (String.toList (" \x7b\"a\":1\x7d "))).2.1 (by decide)
     (by decide),
   (C5_parse_line_rules (String.toList ("plain text"))).2.2.2.1 (by decide)
     (by decide) (by decide)⟩
